import Mathlib

/-!
Shallow embedding of the go-circonus client library (package `circonus`),
covering the request-execution engine of `client.go`: the response
classifier inside `tryRequest`, the single-attempt executor, and the retry
loop of `Client.send`.

Modelling conventions:
* Machine time is abstracted into `Nat` "time units"; the source measures
  durations in seconds (`default_timeout` is 30 units where the source has
  30 seconds, `default_retry_interval` is 1 unit where the source has 1
  second).
* A response body is abstracted by what Go's `json.Decoder` would do with
  it: `Body.empty` is a body with zero bytes after trimming (the decoder
  fails with the exact message "EOF"); `Body.invalid reason` is a non-empty
  body that is not valid JSON (the decoder fails with message `reason`,
  which for such input is never the bare string "EOF"); `Body.json v` is a
  body whose first JSON value decodes to `v`.
* The transport is a double: attempt number `i` of a call observes
  `tr i : Attempt`, carrying the round-trip duration, the status code, the
  body, and an optional non-timeout transport failure.
* `request.Data` models the Go `interface{}` body through the eyes of
  `json.Marshal`: `none` is a nil body, `some (.ok v)` a body that
  marshals to `v`, `some (.error reason)` a body whose marshalling fails.
* `request.newRequestErr` models whether `http.NewRequest` rejects the URL
  composed for this request (`none` means the URL is well formed).
* The goroutine/channel plumbing of `send` delivers exactly the final
  `(res, err)` pair to the caller; the model returns that pair directly,
  together with two instrumentation fields: `calls` (number of network
  round trips issued) and `elapsed` (total model time consumed).
-/

namespace Circonus

/-- A JSON value, as decoded by Go's `encoding/json` into `interface{}`
(numbers simplified to integers, which suffices for every claim). -/
inductive Json where
  | null
  | bool (b : Bool)
  | num (n : Int)
  | str (s : String)
  | arr (xs : List Json)
  | obj (fields : List (String × Json))

/-- The structured service error of `client.go` (`CirconusError`), with its
six JSON-tagged string fields. -/
structure CirconusError where
  Code        : String
  Explanation : String
  Message     : String
  Reference   : String
  Tag         : String
  Server      : String
  deriving DecidableEq, Repr

/-- The error taxonomy of the client: each constructor is one of the error
types declared in the source (plus the raw errors that `http.NewRequest`
and `http.Client.Do` can return, which `tryRequest` propagates as-is). -/
inductive CError where
  | circonusError (e : CirconusError)
  | emptyResponseError
  | malformedResponseError (reason : String)
  | rateLimitError
  | rateLimitExceededError
  | requestDataError (reason : String)
  | resourceNotFoundError (endpoint : String)
  | tokenNotValidatedError
  | accessDeniedError
  | urlError (reason : String)
  | timeoutError
  | transportError (reason : String)
  deriving DecidableEq, Repr

/-- The `Error()` method of each error type, as written in the source. -/
def CError.errorMessage : CError → String
  | .circonusError e => e.Explanation
  | .emptyResponseError => "Empty response from Circonus"
  | .malformedResponseError _ => "Malformed JSON response from Circonus"
  | .rateLimitError => "Request was rate limited"
  | .rateLimitExceededError => "Request exceeded rate limit and exhausted retries"
  | .requestDataError _ => "Cannot encode request data"
  | .resourceNotFoundError endpoint =>
      "Circonus endpoint \"" ++ endpoint ++ "\" not found"
  | .tokenNotValidatedError => "Invalid authentication token"
  | .accessDeniedError => "Access denied"
  | .urlError reason => reason
  | .timeoutError => "Client.Timeout exceeded while awaiting headers"
  | .transportError reason => reason

/-- A response body, abstracted by the behaviour of Go's `json.Decoder` on
it.  `empty` is a body with zero bytes after trimming, `invalid reason` a
non-empty body that is not valid JSON (such a body never produces the bare
decoder message "EOF"), `json v` a body decoding to the value `v`. -/
inductive Body where
  | empty
  | invalid (reason : String)
  | json (v : Json)

/-- Decoding a body into `interface{}` (`decoder.Decode(&response)`). -/
def decodeValue : Body → Except String Json
  | .empty => .error "EOF"
  | .invalid reason => .error reason
  | .json v => .ok v

/-- Decoding one string field of a JSON object into a Go string struct
field: an absent key leaves the zero value "", a string value is taken,
any other value is a decode error. -/
def getStringField (fields : List (String × Json)) (k : String) :
    Except String String :=
  match fields.lookup k with
  | none => .ok ""
  | some (.str s) => .ok s
  | some _ =>
      .error ("json: cannot unmarshal value into Go struct field " ++ k)

/-- Decoding a body into the `CirconusError` struct
(`decoder.Decode(&errorResult)`). -/
def decodeCirconusError : Body → Except String CirconusError
  | .empty => .error "EOF"
  | .invalid reason => .error reason
  | .json (.obj fields) => do
      let code ← getStringField fields "code"
      let explanation ← getStringField fields "explanation"
      let message ← getStringField fields "message"
      let reference ← getStringField fields "reference"
      let tag ← getStringField fields "tag"
      let server ← getStringField fields "server"
      pure ⟨code, explanation, message, reference, tag, server⟩
  | .json .null => .ok ⟨"", "", "", "", "", ""⟩
  | .json _ =>
      .error "json: cannot unmarshal value into Go value of type circonus.CirconusError"

/-- The `request` struct of the source.  `Data` is the request body seen
through `json.Marshal`; `newRequestErr` records whether `http.NewRequest`
rejects the URL composed for this request. -/
structure request where
  Method        : String
  Resource      : String
  Data          : Option (Except String Json) := none
  Parameters    : List (String × String) := []
  newRequestErr : Option String := none

/-- One entry of the transport double: the duration of the round trip, and
either a transport-level failure (`netErr`) or a status code and body. -/
structure Attempt where
  duration : Nat
  status   : Nat
  body     : Body
  netErr   : Option String := none

-- Constants of the source (`const` block of client.go), in model units.
def default_retry_attempts : Int := 5
def default_retry_interval : Nat := 1
def default_timeout : Nat := 30
def default_host : String := "https://api.circonus.com"
def supported_version : String := "v2"

/-- The response classifier: the status/body handling of `tryRequest`
(lines 469-499 of client.go), as a pure function of the requested resource
path, the status code, and the body. -/
def classifyResponse (resourcePath : String) (statusCode : Nat)
    (body : Body) : Except CError Json :=
  if statusCode > 399 then
    if statusCode = 401 then .error .tokenNotValidatedError
    else if statusCode = 403 then .error .accessDeniedError
    else if statusCode = 404 then .error (.resourceNotFoundError resourcePath)
    else if statusCode = 429 then .error .rateLimitError
    else
      match decodeCirconusError body with
      | .error reason => .error (.malformedResponseError reason)
      | .ok ce => .error (.circonusError ce)
  else
    match decodeValue body with
    | .error reason =>
        if reason = "EOF" then .error .emptyResponseError
        else .error (.malformedResponseError reason)
    | .ok v => .ok v

/-- The model of `httpclient.Do`: with a non-zero client timeout, an
attempt slower than the timeout is aborted with a timeout error; otherwise
the attempt's transport failure or response is returned. -/
def doRequest (timeout : Nat) (a : Attempt) : Except CError (Nat × Body) :=
  if timeout ≠ 0 ∧ timeout < a.duration then .error .timeoutError
  else
    match a.netErr with
    | some reason => .error (.transportError reason)
    | none => .ok (a.status, a.body)

/-- Wall-clock time one attempt consumes: a timed-out attempt is cut off
at the timeout, any other attempt runs for its full duration. -/
def attemptElapsed (timeout : Nat) (a : Attempt) : Nat :=
  if timeout ≠ 0 ∧ timeout < a.duration then timeout else a.duration

/-- One call of `tryRequest`: marshal the body (failure is returned before
any network work), build the request (`http.NewRequest` failure is
returned raw), then perform the round trip and classify.  The second
component counts network calls issued (0 or 1). -/
def tryRequest (timeout : Nat) (r : request) (a : Attempt) :
    Except CError Json × Nat :=
  match r.Data with
  | some (.error reason) => (.error (.requestDataError reason), 0)
  | _ =>
    match r.newRequestErr with
    | some reason => (.error (.urlError reason), 0)
    | none =>
      match doRequest timeout a with
      | .error e => (.error e, 1)
      | .ok (status, body) => (classifyResponse r.Resource status body, 1)

/-- The final `(res, err)` pair a `send` call delivers over its result
channel, instrumented with the number of network calls issued and the
total model time consumed. -/
structure SendResult where
  Response : Option Json
  Error    : Option CError
  calls    : Nat
  elapsed  : Nat

/-- The retry loop of `send` (lines 391-408 of client.go).  `i` is the
loop counter; `res`/`err` are the variables the loop assigns; `fuel` is a
structural-termination bound (the loop is entered with `fuel = retries`,
so the guard `i < retries` always exits first).  A `RateLimitError` result
waits one retry interval, becomes `RateLimitExceededError` on the last
iteration, and continues; any other result stops the loop. -/
def sendLoop (timeout : Nat) (retries : Nat) (r : request)
    (tr : Nat → Attempt) :
    Nat → Nat → Option Json → Option CError → Nat → Nat → SendResult
  | 0, _, res, err, calls, elapsed => ⟨res, err, calls, elapsed⟩
  | fuel + 1, i, res, err, calls, elapsed =>
    if i < retries then
      let a := tr i
      let out := tryRequest timeout r a
      let calls2 := calls + out.2
      let elapsed2 :=
        elapsed + (if out.2 = 0 then 0 else attemptElapsed timeout a)
      match out.1 with
      | .ok v => ⟨some v, none, calls2, elapsed2⟩
      | .error e =>
        if e = CError.rateLimitError then
          let err2 : CError :=
            if i = retries - 1 then CError.rateLimitExceededError
            else CError.rateLimitError
          sendLoop timeout retries r tr fuel (i + 1) none (some err2)
            calls2 (elapsed2 + default_retry_interval)
        else ⟨none, some e, calls2, elapsed2⟩
    else ⟨res, err, calls, elapsed⟩

/-- The engine of `send` for a given effective timeout: run the retry loop
from `i = 0` with nil `res` and `err` (Go ints that are zero or negative
run the loop zero times, hence `Int.toNat`). -/
def sendWith (timeout : Nat) (retries : Int) (r : request)
    (tr : Nat → Attempt) : SendResult :=
  sendLoop timeout retries.toNat r tr retries.toNat 0 none none 0 0

/-- The cached `*http.Client` of the `Client` struct: all the model needs
of it is the `Timeout` it was constructed with. -/
structure HttpClient where
  Timeout : Nat
  deriving DecidableEq, Repr

/-- The `Client` struct: the public `Retries` and `Timeout` fields, the
identification strings, and the lazily constructed `httpclient`. -/
structure Client where
  Retries    : Int
  Timeout    : Nat
  app        : String := ""
  host       : String := ""
  path       : String := ""
  token      : String := ""
  httpclient : Option HttpClient := none
  deriving DecidableEq, Repr

/-- The lazy-initialisation block at the top of `send` (lines 383-388):
construct the `http.Client` capturing the current `Timeout` only when the
field is still nil. -/
def ensureHttpclient (c : Client) : Client :=
  match c.httpclient with
  | none => { c with httpclient := some ⟨c.Timeout⟩ }
  | some _ => c

/-- `Client.send`: initialise the cached HTTP client if needed, then run
the retry loop under that client's timeout.  Returns the (possibly
updated) client state together with the delivered result. -/
def Client.send (c : Client) (r : request) (tr : Nat → Attempt) :
    Client × SendResult :=
  let c2 := ensureHttpclient c
  let t :=
    match c2.httpclient with
    | some h => h.Timeout
    | none => c.Timeout
  (c2, sendWith t c.Retries r tr)

/-- `NewClient` of the source: default retries and timeout, empty cache. -/
def NewClient (appname apitoken : String) : Client :=
  { Retries := default_retry_attempts
    Timeout := default_timeout
    app := appname
    host := default_host
    path := "/" ++ supported_version
    token := apitoken
    httpclient := none }

/-- The body `{ "data": [1,2,3,4] }` served by the test server's success
handler. -/
def successValue : Json :=
  Json.obj [("data", Json.arr [Json.num 1, Json.num 2, Json.num 3, Json.num 4])]

/-- A plain GET request with nil body and a well-formed URL. -/
def getReq : request :=
  { Method := "GET", Resource := "/resource" }

/-- Transport double that responds 200 with the success body at once. -/
def trOk : Nat → Attempt :=
  fun _ => { duration := 0, status := 200, body := Body.json successValue }

/-- Discriminator: does a classification result carry
`MalformedResponseError` (with any reason)? -/
def isMalformedResponse : Except CError Json → Bool
  | .error (.malformedResponseError _) => true
  | _ => false

-- Theorems ============================================================== --

/-- C5: status 401 is classified as `TokenNotValidatedError`, 403 as
`AccessDeniedError`, and 404 as `ResourceNotFoundError` whose endpoint is
the requested resource path, deterministically and for every body (no body
parse is attempted for these statuses). -/
theorem C5_auth_status_mapping (resourcePath : String) (body : Body) :
    classifyResponse resourcePath 401 body
      = .error CError.tokenNotValidatedError ∧
    classifyResponse resourcePath 403 body
      = .error CError.accessDeniedError ∧
    classifyResponse resourcePath 404 body
      = .error (CError.resourceNotFoundError resourcePath) := by
  refine ⟨rfl, rfl, rfl⟩

/-- C6: for every response with status below 400, an empty body is
classified as `EmptyResponseError`, a valid JSON body as success carrying
the parsed value, and a non-empty non-JSON body (whose decoder message is
never the bare "EOF") as `MalformedResponseError` with that reason. -/
theorem C6_success_status_classification (resourcePath : String)
    (statusCode : Nat) (h : statusCode < 400) :
    classifyResponse resourcePath statusCode Body.empty
      = .error CError.emptyResponseError ∧
    (∀ v : Json,
      classifyResponse resourcePath statusCode (Body.json v) = .ok v) ∧
    (∀ reason : String, reason ≠ "EOF" →
      classifyResponse resourcePath statusCode (Body.invalid reason)
        = .error (CError.malformedResponseError reason)) := by
  have hgt : ¬ statusCode > 399 := by omega
  refine ⟨?_, ?_, ?_⟩
  · simp [classifyResponse, hgt, decodeValue]
  · intro v
    simp [classifyResponse, hgt, decodeValue]
  · intro reason hreason
    simp [classifyResponse, hgt, decodeValue, hreason]

/-- Witness for C6 at status 200. -/
theorem C6_success_status_classification_witness :
    classifyResponse "/success" 200 Body.empty
      = .error CError.emptyResponseError ∧
    classifyResponse "/success" 200 (Body.json successValue)
      = .ok successValue ∧
    classifyResponse "/success" 200 (Body.invalid "bad json")
      = .error (CError.malformedResponseError "bad json") := by
  obtain ⟨h1, h2, h3⟩ :=
    C6_success_status_classification "/success" 200 (by decide)
  exact ⟨h1, h2 successValue, h3 "bad json" (by decide)⟩

/-- C7: for every status of 400 or more that is none of 401, 403, 404,
429, the body is decoded as the structured `CirconusError`; on success
that error is surfaced as-is (its six fields preserved, its Explanation
text as the error message), and on decode failure
`MalformedResponseError` is returned. -/
theorem C7_generic_service_error (resourcePath : String) (statusCode : Nat)
    (body : Body) (h400 : 399 < statusCode) (h401 : statusCode ≠ 401)
    (h403 : statusCode ≠ 403) (h404 : statusCode ≠ 404)
    (h429 : statusCode ≠ 429) :
    (∀ ce : CirconusError, decodeCirconusError body = .ok ce →
        classifyResponse resourcePath statusCode body
          = .error (CError.circonusError ce) ∧
        (CError.circonusError ce).errorMessage = ce.Explanation) ∧
    (∀ reason : String, decodeCirconusError body = .error reason →
        classifyResponse resourcePath statusCode body
          = .error (CError.malformedResponseError reason)) ∧
    (∀ code explanation message reference tag server : String,
        decodeCirconusError (Body.json (Json.obj
          [("code", Json.str code), ("explanation", Json.str explanation),
           ("message", Json.str message), ("reference", Json.str reference),
           ("tag", Json.str tag), ("server", Json.str server)]))
          = .ok ⟨code, explanation, message, reference, tag, server⟩) := by
  refine ⟨?_, ?_, ?_⟩
  · intro ce hce
    refine ⟨?_, rfl⟩
    simp [classifyResponse, h400, h401, h403, h404, h429, hce]
  · intro reason hreason
    simp [classifyResponse, h400, h401, h403, h404, h429, hreason]
  · intro code explanation message reference tag server
    rfl

/-- Witness for C7 at status 500, with the test fixture's error body and
with a malformed body. -/
theorem C7_generic_service_error_witness :
    classifyResponse "/failure" 500 (Body.json (Json.obj
      [("code", Json.str "1234"), ("explanation", Json.str "Intential error"),
       ("message", Json.str "Test-triggered error"),
       ("reference", Json.str "code-1234"), ("tag", Json.str "id-abcd"),
       ("server", Json.str "test")]))
      = .error (CError.circonusError
          ⟨"1234", "Intential error", "Test-triggered error", "code-1234",
           "id-abcd", "test"⟩) ∧
    (CError.circonusError
        ⟨"1234", "Intential error", "Test-triggered error", "code-1234",
         "id-abcd", "test"⟩).errorMessage = "Intential error" ∧
    classifyResponse "/malformed-failure" 500 (Body.invalid "bad json")
      = .error (CError.malformedResponseError "bad json") := by
  have h1 := C7_generic_service_error "/failure" 500 (Body.json (Json.obj
      [("code", Json.str "1234"), ("explanation", Json.str "Intential error"),
       ("message", Json.str "Test-triggered error"),
       ("reference", Json.str "code-1234"), ("tag", Json.str "id-abcd"),
       ("server", Json.str "test")]))
    (by decide) (by decide) (by decide) (by decide) (by decide)
  have h2 := C7_generic_service_error "/malformed-failure" 500
    (Body.invalid "bad json")
    (by decide) (by decide) (by decide) (by decide) (by decide)
  have hok := h1.1 ⟨"1234", "Intential error", "Test-triggered error",
    "code-1234", "id-abcd", "test"⟩ rfl
  exact ⟨hok.1, hok.2, h2.2.1 "bad json" rfl⟩

/-- C8 counterexample: a response with status 404 and a non-empty
non-JSON body is classified as `ResourceNotFoundError`, not as
`MalformedResponseError`, so "non-empty non-JSON body with any status
yields MalformedResponseError" fails at status 404. -/
theorem C8_counterexample :
    classifyResponse "/nonexistent" 404 (Body.invalid "bad json")
      = .error (CError.resourceNotFoundError "/nonexistent") ∧
    isMalformedResponse
        (classifyResponse "/nonexistent" 404 (Body.invalid "bad json"))
      = false := by
  exact ⟨rfl, rfl⟩

/-- C8 amended: a non-empty non-JSON body yields
`MalformedResponseError` for every status other than 401, 403, 404 and
429; and a response with status 200 and empty body always yields
`EmptyResponseError`. -/
theorem C8_malformed_body_classification (resourcePath : String)
    (statusCode : Nat) (reason : String) (hreason : reason ≠ "EOF")
    (h401 : statusCode ≠ 401) (h403 : statusCode ≠ 403)
    (h404 : statusCode ≠ 404) (h429 : statusCode ≠ 429) :
    classifyResponse resourcePath statusCode (Body.invalid reason)
      = .error (CError.malformedResponseError reason) ∧
    classifyResponse resourcePath 200 Body.empty
      = .error CError.emptyResponseError := by
  refine ⟨?_, rfl⟩
  by_cases hgt : statusCode > 399
  · simp [classifyResponse, hgt, h401, h403, h404, h429, decodeCirconusError]
  · simp [classifyResponse, hgt, decodeValue, hreason]

/-- Witness for C8's amended statement at status 500. -/
theorem C8_malformed_body_classification_witness :
    classifyResponse "/malformed-failure" 500 (Body.invalid "bad json")
      = .error (CError.malformedResponseError "bad json") ∧
    classifyResponse "/malformed-failure" 200 Body.empty
      = .error CError.emptyResponseError := by
  exact C8_malformed_body_classification "/malformed-failure" 500 "bad json"
    (by decide) (by decide) (by decide) (by decide) (by decide)

/-- When the loop counter has reached the retry bound, the loop returns
its accumulated state unchanged. -/
theorem sendLoop_done (timeout retries : Nat) (r : request)
    (tr : Nat → Attempt) (fuel i : Nat) (res : Option Json)
    (err : Option CError) (calls elapsed : Nat) (h : retries ≤ i) :
    sendLoop timeout retries r tr fuel i res err calls elapsed
      = ⟨res, err, calls, elapsed⟩ := by
  cases fuel with
  | zero => rfl
  | succ fuel =>
    have hlt : ¬ i < retries := by omega
    simp [sendLoop, hlt]

/-- Loop invariant: as long as the carried error is not the transient
`RateLimitError` or the loop will run at least once more, the loop never
delivers `RateLimitError`. -/
theorem sendLoop_no_rateLimit (timeout retries : Nat) (r : request)
    (tr : Nat → Attempt) :
    ∀ (fuel i : Nat) (res : Option Json) (err : Option CError)
      (calls elapsed : Nat),
      (err ≠ some CError.rateLimitError ∨ i < retries) →
      retries ≤ fuel + i →
      (sendLoop timeout retries r tr fuel i res err calls
          elapsed).Error ≠ some CError.rateLimitError := by
  intro fuel
  induction fuel with
  | zero =>
    intro i res err calls elapsed hdisj hbound
    have herr : err ≠ some CError.rateLimitError := by
      rcases hdisj with h | h
      · exact h
      · omega
    simpa [sendLoop] using herr
  | succ fuel ih =>
    intro i res err calls elapsed hdisj hbound
    by_cases hlt : i < retries
    · cases ho : (tryRequest timeout r (tr i)).1 with
      | ok v => simp [sendLoop, hlt, ho]
      | error e =>
        by_cases he : e = CError.rateLimitError
        · subst he
          by_cases hlast : i = retries - 1
          · have step :
                (sendLoop timeout retries r tr (fuel + 1) i res err calls
                    elapsed).Error
                  = (sendLoop timeout retries r tr fuel (i + 1) none
                      (some CError.rateLimitExceededError)
                      (calls + (tryRequest timeout r (tr i)).2)
                      ((elapsed +
                          if (tryRequest timeout r (tr i)).2 = 0 then 0
                          else attemptElapsed timeout (tr i))
                        + default_retry_interval)).Error := by
              simp [sendLoop, hlt, ho, if_pos hlast]
            rw [step]
            exact ih (i + 1) none (some CError.rateLimitExceededError) _ _
              (Or.inl (by simp)) (by omega)
          · have step :
                (sendLoop timeout retries r tr (fuel + 1) i res err calls
                    elapsed).Error
                  = (sendLoop timeout retries r tr fuel (i + 1) none
                      (some CError.rateLimitError)
                      (calls + (tryRequest timeout r (tr i)).2)
                      ((elapsed +
                          if (tryRequest timeout r (tr i)).2 = 0 then 0
                          else attemptElapsed timeout (tr i))
                        + default_retry_interval)).Error := by
              simp [sendLoop, hlt, ho, if_neg hlast]
            rw [step]
            exact ih (i + 1) none (some CError.rateLimitError) _ _
              (Or.inr (by omega)) (by omega)
        · simp [sendLoop, hlt, ho, he]
    · have herr : err ≠ some CError.rateLimitError := by
        rcases hdisj with h | h
        · exact h
        · exact absurd h hlt
      simpa [sendLoop_done timeout retries r tr _ i res err calls elapsed
        (by omega)] using herr

/-- Loop exhaustion: if every remaining attempt classifies as
`RateLimitError`, the loop delivers `RateLimitExceededError`. -/
theorem sendLoop_exhausts (timeout retries : Nat) (r : request)
    (tr : Nat → Attempt)
    (hall : ∀ j, j < retries →
      (tryRequest timeout r (tr j)).1 = .error CError.rateLimitError) :
    ∀ (fuel i : Nat) (res : Option Json) (err : Option CError)
      (calls elapsed : Nat),
      i < retries → retries ≤ fuel + i →
      (sendLoop timeout retries r tr fuel i res err calls elapsed).Error
        = some CError.rateLimitExceededError := by
  intro fuel
  induction fuel with
  | zero =>
    intro i res err calls elapsed hi hb
    omega
  | succ fuel ih =>
    intro i res err calls elapsed hi hb
    have htr := hall i hi
    by_cases hlast : i = retries - 1
    · have step :
          (sendLoop timeout retries r tr (fuel + 1) i res err calls
              elapsed).Error
            = (sendLoop timeout retries r tr fuel (i + 1) none
                (some CError.rateLimitExceededError)
                (calls + (tryRequest timeout r (tr i)).2)
                ((elapsed +
                    if (tryRequest timeout r (tr i)).2 = 0 then 0
                    else attemptElapsed timeout (tr i))
                  + default_retry_interval)).Error := by
        simp [sendLoop, hi, htr, if_pos hlast]
      rw [step, sendLoop_done timeout retries r tr fuel (i + 1) none
        (some CError.rateLimitExceededError) _ _ (by omega)]
    · have step :
          (sendLoop timeout retries r tr (fuel + 1) i res err calls
              elapsed).Error
            = (sendLoop timeout retries r tr fuel (i + 1) none
                (some CError.rateLimitError)
                (calls + (tryRequest timeout r (tr i)).2)
                ((elapsed +
                    if (tryRequest timeout r (tr i)).2 = 0 then 0
                    else attemptElapsed timeout (tr i))
                  + default_retry_interval)).Error := by
        simp [sendLoop, hi, htr, if_neg hlast]
      rw [step]
      exact ih (i + 1) none (some CError.rateLimitError) _ _
        (by omega) (by omega)

/-- C4: a 429 response is classified as the sentinel `RateLimitError` for
every body; a `send` call never delivers that sentinel to its caller; and
when every attempt is rate limited, a call with a positive retry budget
delivers the distinct terminal `RateLimitExceededError`. -/
theorem C4_rate_limit_taxonomy :
    (∀ (resourcePath : String) (body : Body),
        classifyResponse resourcePath 429 body
          = .error CError.rateLimitError) ∧
    (∀ (c : Client) (r : request) (tr : Nat → Attempt),
        (c.send r tr).2.Error ≠ some CError.rateLimitError) ∧
    (∀ (c : Client) (method resourcePath : String)
        (params : List (String × String)) (bodies : Nat → Body),
        1 ≤ c.Retries →
        (c.send { Method := method, Resource := resourcePath, Data := none,
                  Parameters := params, newRequestErr := none }
            (fun i =>
              { duration := 0, status := 429, body := bodies i })).2.Error
          = some CError.rateLimitExceededError) := by
  refine ⟨fun p b => rfl, ?_, ?_⟩
  · intro c r tr
    exact sendLoop_no_rateLimit _ c.Retries.toNat r tr c.Retries.toNat 0
      none none 0 0 (Or.inl (by simp)) (by omega)
  · intro c method resourcePath params bodies hr
    simp only [Client.send, sendWith]
    refine sendLoop_exhausts _ _ _ _ ?_ _ 0 none none 0 0
      (by omega) (by omega)
    intro j hj
    simp [tryRequest, doRequest, classifyResponse]

/-- Witness for C4 with a client allowing two attempts against an
always-429 transport. -/
theorem C4_rate_limit_taxonomy_witness :
    classifyResponse "/rate-limit-full" 429 Body.empty
      = .error CError.rateLimitError ∧
    (({ NewClient "sampleapp" "abc123" with Retries := 2 } : Client).send
        { Method := "GET", Resource := "/rate-limit-full", Data := none,
          Parameters := [], newRequestErr := none }
        (fun i =>
          { duration := 0, status := 429,
            body := (fun _ => Body.empty) i })).2.Error
      = some CError.rateLimitExceededError := by
  refine ⟨C4_rate_limit_taxonomy.1 "/rate-limit-full" Body.empty, ?_⟩
  exact C4_rate_limit_taxonomy.2.2
    { NewClient "sampleapp" "abc123" with Retries := 2 } "GET"
    "/rate-limit-full" [] (fun _ => Body.empty) (by decide)

/-- Transport double: 429 on the first attempt, then 200 with the success
body (exactly K = 1 rate-limited response before success). -/
def tr429then200 : Nat → Attempt := fun i =>
  if i = 0 then { duration := 0, status := 429, body := Body.empty }
  else { duration := 0, status := 200, body := Body.json successValue }

/-- C1 at its failing input: against a transport returning 429 exactly
once and then 200 (K = 1), a client with `Retries = 1` performs a single
attempt and returns `RateLimitExceededError` instead of retrying and
succeeding (the loop makes `Retries` total attempts, i.e. `Retries - 1`
retries); only `Retries = 2` (that is, K + 1) succeeds with the final
body. -/
theorem C1_retries_off_by_one :
    (({ NewClient "sampleapp" "abc123" with Retries := 1 } : Client).send
        getReq tr429then200).2
      = ⟨none, some CError.rateLimitExceededError, 1,
          default_retry_interval⟩ ∧
    (({ NewClient "sampleapp" "abc123" with Retries := 2 } : Client).send
        getReq tr429then200).2
      = ⟨some successValue, none, 2, default_retry_interval⟩ := by
  exact ⟨rfl, rfl⟩

/-- Transport double whose attempts each take 20 time units: 429 on the
first attempt, then 200 with the success body. -/
def trSlowRetry : Nat → Attempt := fun i =>
  if i = 0 then { duration := 20, status := 429, body := Body.empty }
  else { duration := 20, status := 200, body := Body.json successValue }

/-- C2 counterexample: with the default 30-unit timeout, a call whose
first attempt takes 20 units, hits 429, waits the retry interval, and
then takes another 20 units, runs for 41 units in total — past the
configured deadline — and still delivers the success body, not a timeout
error.  The deadline is therefore not an overall per-call deadline. -/
theorem C2_counterexample :
    ((NewClient "sampleapp" "abc123").send getReq trSlowRetry).2
      = ⟨some successValue, none, 2, 41⟩ ∧
    default_timeout < 41 := by
  exact ⟨rfl, by decide⟩

/-- C2 amended: the configured timeout governs each attempt separately.
With a non-zero timeout, a single attempt slower than the timeout yields
a timeout error (terminal, not retried, regardless of retry budget);
with a zero timeout the deadline is disabled and an arbitrarily slow
response still completes successfully. -/
theorem C2_per_attempt_timeout (timeoutV d : Nat) (retriesV : Int)
    (v : Json) (hr : 1 ≤ retriesV) :
    (timeoutV ≠ 0 → timeoutV < d →
      (({ NewClient "sampleapp" "abc123" with
            Timeout := timeoutV, Retries := retriesV } : Client).send getReq
          (fun _ => { duration := d, status := 200,
                      body := Body.json v })).2
        = ⟨none, some CError.timeoutError, 1, timeoutV⟩) ∧
    ((({ NewClient "sampleapp" "abc123" with
            Timeout := 0, Retries := retriesV } : Client).send getReq
          (fun _ => { duration := d, status := 200,
                      body := Body.json v })).2
        = ⟨some v, none, 1, d⟩) := by
  obtain ⟨m, hm⟩ : ∃ m, retriesV.toNat = m + 1 :=
    ⟨retriesV.toNat - 1, by omega⟩
  constructor
  · intro h0 hd
    simp [Client.send, ensureHttpclient, NewClient, sendWith, hm, sendLoop,
      tryRequest, doRequest, attemptElapsed, h0, hd, classifyResponse,
      decodeValue, getReq]
  · simp [Client.send, ensureHttpclient, NewClient, sendWith, hm, sendLoop,
      tryRequest, doRequest, attemptElapsed, classifyResponse, decodeValue,
      getReq]

/-- Witness for C2's amended statement: timeout 30, attempt duration 31. -/
theorem C2_per_attempt_timeout_witness :
    (({ NewClient "sampleapp" "abc123" with
          Timeout := 30, Retries := 5 } : Client).send getReq
        (fun _ => { duration := 31, status := 200,
                    body := Body.json successValue })).2
      = ⟨none, some CError.timeoutError, 1, 30⟩ ∧
    (({ NewClient "sampleapp" "abc123" with
          Timeout := 0, Retries := 5 } : Client).send getReq
        (fun _ => { duration := 31, status := 200,
                    body := Body.json successValue })).2
      = ⟨some successValue, none, 1, 31⟩ := by
  obtain ⟨h1, h2⟩ :=
    C2_per_attempt_timeout 30 31 5 successValue (by decide)
  exact ⟨h1 (by decide) (by decide), h2⟩

/-- C3: a request whose body is present but fails JSON serialization
makes `send` return `RequestDataError` with the marshaller's reason,
issuing zero network calls and consuming no time, for every transport
and every positive retry budget (the failure is terminal, never
retried). -/
theorem C3_request_data_short_circuit (c : Client)
    (method resourcePath reason : String)
    (params : List (String × String)) (tr : Nat → Attempt)
    (h : 1 ≤ c.Retries) :
    (c.send { Method := method, Resource := resourcePath,
              Data := some (.error reason), Parameters := params,
              newRequestErr := none } tr).2
      = ⟨none, some (CError.requestDataError reason), 0, 0⟩ := by
  obtain ⟨m, hm⟩ : ∃ m, c.Retries.toNat = m + 1 :=
    ⟨c.Retries.toNat - 1, by omega⟩
  simp [Client.send, sendWith, hm, sendLoop, tryRequest]

/-- Witness for C3 with the default client and the success transport. -/
theorem C3_request_data_short_circuit_witness :
    ((NewClient "sampleapp" "abc123").send
        { Method := "GET", Resource := "/success",
          Data := some (.error "json: unsupported type"),
          Parameters := [], newRequestErr := none } trOk).2
      = ⟨none, some (CError.requestDataError "json: unsupported type"),
          0, 0⟩ := by
  exact C3_request_data_short_circuit (NewClient "sampleapp" "abc123")
    "GET" "/success" "json: unsupported type" [] trOk (by decide)

/-- C9: a client whose `Retries` field is zero or negative never enters
the attempt loop: `send` issues no HTTP attempt and delivers a nil value
with a nil error (no classified outcome at all). -/
theorem C9_nonpositive_retries (c : Client) (r : request)
    (tr : Nat → Attempt) (h : c.Retries ≤ 0) :
    (c.send r tr).2 = ⟨none, none, 0, 0⟩ := by
  have h0 : c.Retries.toNat = 0 := by omega
  simp [Client.send, sendWith, h0, sendLoop]

/-- Witness for C9 with `Retries = 0` against a transport that would
answer 200 at once. -/
theorem C9_nonpositive_retries_witness :
    (({ NewClient "sampleapp" "abc123" with Retries := 0 } : Client).send
        getReq trOk).2
      = ⟨none, none, 0, 0⟩ := by
  exact C9_nonpositive_retries
    { NewClient "sampleapp" "abc123" with Retries := 0 } getReq trOk
    (by decide)

/-- C10: the HTTP client is constructed lazily on the first `send` call,
capturing the `Timeout` value current at that moment; once the
`httpclient` field is non-nil it is reused unchanged by every later call,
whose behaviour therefore does not depend on later mutations of the
public `Timeout` field. -/
theorem C10_lazy_httpclient (c : Client) (r : request)
    (tr : Nat → Attempt) :
    (c.httpclient = none →
        (c.send r tr).1.httpclient = some ⟨c.Timeout⟩) ∧
    (∀ hc : HttpClient, c.httpclient = some hc →
        (c.send r tr).1 = c ∧
        (c.send r tr).2 = sendWith hc.Timeout c.Retries r tr ∧
        (∀ t2 : Nat,
          (({ c with Timeout := t2 } : Client).send r tr).2
            = (c.send r tr).2)) := by
  constructor
  · intro hnone
    simp [Client.send, ensureHttpclient, hnone]
  · intro hc hsome
    refine ⟨?_, ?_, ?_⟩
    · simp [Client.send, ensureHttpclient, hsome]
    · simp [Client.send, ensureHttpclient, hsome]
    · intro t2
      simp [Client.send, ensureHttpclient, hsome]

/-- Witness for C10: a fresh client caches its 30-unit timeout; a client
already holding a cached 7-unit HTTP client keeps using it even with the
public `Timeout` field mutated to 99. -/
theorem C10_lazy_httpclient_witness :
    ((NewClient "sampleapp" "abc123").send getReq trOk).1.httpclient
      = some ⟨default_timeout⟩ ∧
    (({ NewClient "sampleapp" "abc123" with
          Timeout := 99, httpclient := some ⟨7⟩ } : Client).send getReq
        trOk).2
      = sendWith 7 default_retry_attempts getReq trOk := by
  constructor
  · exact (C10_lazy_httpclient (NewClient "sampleapp" "abc123") getReq
      trOk).1 rfl
  · exact ((C10_lazy_httpclient
      { NewClient "sampleapp" "abc123" with
          Timeout := 99, httpclient := some ⟨7⟩ } getReq trOk).2 ⟨7⟩
      rfl).2.1

end Circonus
